import Mathlib

/-!
Shallow embedding of `lutris/scanners/lutris.py`: the directory scanner,
the game-path cache, the per-game path derivation and the missing-game
tracker.  Python dicts are modelled as insertion-ordered association
lists, Python sets as duplicate-free lists, the JSON cache file as an
explicit file state, and raised exceptions as `Except` results.  External
collaborators (the filesystem, the catalog API, the installer
interpreter, the game database) enter as explicit parameters.
-/

namespace LutrisScanner

/-- Python exceptions that the embedded code can raise. -/
inductive PyError where
  | fileNotFound
  | indexError
  | typeError
  | generic
  deriving DecidableEq, Repr

/-- Outcome of `install_game` (the external `ScriptInterpreter` collaborator):
it either succeeds, raises `MissingGameDependencyError`, or raises some other
exception. -/
inductive InstallResult where
  | success
  | missingGameDependency
  | otherError
  deriving DecidableEq, Repr

/-- Truthiness of a Python `str`-or-`None` value (`if not exe_path:`). -/
def optFalsy : Option String → Bool
  | none => true
  | some s => s = ""

/-- Python `s.startswith(pre)` (character-list computation so that concrete
instances evaluate inside the kernel). -/
def strStartsWith (s pre : String) : Bool :=
  s.data.take pre.data.length = pre.data

/-- Python `s.endswith(suf)`. -/
def strEndsWith (s suf : String) : Bool :=
  s.data.length ≥ suf.data.length ∧
    s.data.drop (s.data.length - suf.data.length) = suf.data

/-- `os.path.join` for two components (POSIX semantics: an absolute second
component discards the first). -/
def joinPath (a b : String) : String :=
  if strStartsWith b "/" then b
  else if a = "" then b
  else if strEndsWith a "/" then a ++ b
  else a ++ "/" ++ b

/-- `os.path.expanduser` restricted to the `~`/`~/...` forms (a `~user` form
would consult the password database, an external lookup we leave as the
identity). -/
def expanduser (home s : String) : String :=
  if s = "~" then home
  else if strStartsWith s "~/" then home ++ s.drop 1
  else s

/-- Replace every (leftmost, non-overlapping) occurrence of `pat` in a
character list — Python `str.replace` for a non-empty pattern.  The fuel is
structural only; each step consumes at least one character, so any fuel at
least the list length gives the full replacement. -/
def replaceChars (pat rep : List Char) : Nat → List Char → List Char
  | _, [] => []
  | 0, l => l
  | fuel + 1, c :: rest =>
    if pat ≠ [] ∧ (c :: rest).take pat.length = pat then
      rep ++ replaceChars pat rep fuel (rest.drop (pat.length - 1))
    else
      c :: replaceChars pat rep fuel rest

/-- Python `s.replace(pat, rep)`. -/
def pyReplace (s pat rep : String) : String :=
  String.mk (replaceChars pat.data rep.data s.data.length s.data)

/-- Insertion-ordered dictionary update: an existing key keeps its position
and gets the new value, a new key is appended (Python `d[k] = v`). -/
def dictInsert : List (String × String) → String → String → List (String × String)
  | [], k, v => [(k, v)]
  | (k0, v0) :: rest, k, v =>
    if k0 = k then (k, v) :: rest else (k0, v0) :: dictInsert rest k v

/-- Python `del d[k]` (on JSON-loaded dicts keys are unique; removing every
pair with the key is the same operation). -/
def dictErase (m : List (String × String)) (k : String) : List (String × String) :=
  m.filter (fun kv => kv.1 ≠ k)

/-- Python `d.get(k)` / `d[k]` lookup: first binding wins. -/
def dictGet : List (String × String) → String → Option String
  | [], _ => none
  | (k0, v0) :: rest, k => if k0 = k then some v0 else dictGet rest k

/-- Python `k in d`. -/
def dictHasKey (m : List (String × String)) (k : String) : Bool :=
  (dictGet m k).isSome

/-- Python `set.add` on a duplicate-free list model of a set. -/
def setAdd (l : List String) (x : String) : List String :=
  if x ∈ l then l else l ++ [x]

/-- Python `s |= set(r)` on the list model of a set. -/
def setUnion (l r : List String) : List String :=
  r.foldl setAdd l

theorem dictGet_insert_self (m : List (String × String)) (k v : String) :
    dictGet (dictInsert m k v) k = some v := by
  induction m with
  | nil => simp [dictInsert, dictGet]
  | cons kv rest ih =>
    obtain ⟨k0, v0⟩ := kv
    by_cases h : k0 = k <;> simp [dictInsert, dictGet, h, ih]

theorem dictGet_erase_self (m : List (String × String)) (k : String) :
    dictGet (dictErase m k) k = none := by
  induction m with
  | nil => simp [dictErase, dictGet]
  | cons kv rest ih =>
    obtain ⟨k0, v0⟩ := kv
    by_cases h : k0 = k
    · simpa [dictErase, h] using ih
    · simpa [dictErase, dictGet, h] using ih

/-- State of the persistent cache file `game-paths.json`: absent, present
but unparseable as JSON (which includes the empty file left by a bare
truncation), or present with a parsed JSON object.  `json.dump` of a dict
followed by `json.load` returns an equal dict, so a well-formed file is
carried as the mapping itself. -/
inductive FileState where
  | absent
  | present (parsed : Option (List (String × String)))
  deriving DecidableEq, Repr

/-- `read_path_cache` (lines 203–209): `open` the cache file — raising
`FileNotFoundError` if it is absent, since the `open` sits outside the
`try` — then `json.load` it, returning `{}` on `json.JSONDecodeError`. -/
def readPathCache : FileState → Except PyError (List (String × String))
  | .absent => .error .fileNotFound
  | .present none => .ok []
  | .present (some m) => .ok m

/-- The per-game configuration section (`game.config.game_config`), restricted
to the keys `get_path_from_config` probes.  A `none` field is an absent key;
`some ""` is a key present with an empty value — Python distinguishes the two
(`key in game_config` versus `if path:`).  The `"disk-a"` key is spelled
`disk_a`. -/
structure GameConfig where
  exe : Option String
  main_file : Option String
  iso : Option String
  rom : Option String
  disk_a : Option String
  path : Option String
  files : Option (List String)
  deriving DecidableEq, Repr

/-- The slice of the external `Game` object that `get_path_from_config`,
`get_game_paths` and the cache mutators read: the database id, the runner
name, the install directory and the optional configuration. -/
structure Game where
  id : String
  runner_name : String
  directory : String
  config : Option GameConfig
  deriving DecidableEq, Repr

/-- One looked-up configuration value as seen by the probe loop of
`get_path_from_config`: key absent, a scalar value, or the `"files"` list. -/
inductive CfgEntry where
  | absent
  | val (s : String)
  | flist (l : List String)
  deriving DecidableEq, Repr

/-- Lift a scalar configuration field to a probe entry. -/
def toEntry : Option String → CfgEntry
  | none => .absent
  | some s => .val s

/-- Lift the `"files"` field to a probe entry. -/
def filesEntry : Option (List String) → CfgEntry
  | none => .absent
  | some l => .flist l

/-- The values of the keys `["exe", "main_file", "iso", "rom", "disk-a",
"path", "files"]` in the order the loop of `get_path_from_config`
probes them. -/
def configEntries (cfg : GameConfig) : List CfgEntry :=
  [toEntry cfg.exe, toEntry cfg.main_file, toEntry cfg.iso, toEntry cfg.rom,
   toEntry cfg.disk_a, toEntry cfg.path, filesEntry cfg.files]

/-- The probe loop of `get_path_from_config` (lines 127–137): for each key
present, take its value — for `"files"` the unguarded `path[0]`, an
`IndexError` on an empty list — and return the first truthy one. -/
def probeConfig : List CfgEntry → Except PyError (Option String)
  | [] => .ok none
  | .absent :: rest => probeConfig rest
  | .val s :: rest => if s ≠ "" then .ok (some s) else probeConfig rest
  | .flist [] :: _ => .error .indexError
  | .flist (x :: _) :: rest => if x ≠ "" then .ok (some x) else probeConfig rest

/-- The MAME guard of lines 123–125: `game.runner_name == "mame"` and
`"main_file" in game_config and "." not in game_config["main_file"]`. -/
def mameSkip (game : Game) (cfg : GameConfig) : Bool :=
  game.runner_name = "mame" &&
    (match cfg.main_file with
     | some m => !(m.data.contains '.')
     | none => false)

/-- `get_path_from_config` (lines 115–140): no configuration yields `""`;
MAME roms referenced by a dotless id yield `""`; otherwise the probe loop
runs and its winner is `os.path.expanduser`-expanded and, when not
absolute, joined under `game.directory`; no winner yields `""`. -/
def getPathFromConfig (home : String) (game : Game) : Except PyError String :=
  match game.config with
  | none => .ok ""
  | some cfg =>
    if mameSkip game cfg then .ok ""
    else
      match probeConfig (configEntries cfg) with
      | .error e => .error e
      | .ok none => .ok ""
      | .ok (some p) =>
        let p := expanduser home p
        .ok (if strStartsWith p "/" then p else joinPath game.directory p)

/-- Candidate list in the priority order the spec describes: `exe`,
`main_file`, `iso`, `rom`, `disk-a`, `path`, then the first element of
`files`. -/
def specCandidates (cfg : GameConfig) : List (Option String) :=
  [cfg.exe, cfg.main_file, cfg.iso, cfg.rom, cfg.disk_a, cfg.path,
   cfg.files.bind List.head?]

/-- First present, non-empty candidate — the spec-side description of the
probe loop. -/
def firstNonEmpty : List (Option String) → Option String
  | [] => none
  | none :: rest => firstNonEmpty rest
  | some s :: rest => if s ≠ "" then some s else firstNonEmpty rest

/-- Resolution applied to the probe winner: expand the user directory and
resolve a relative result against the game's installation directory; no
winner gives the empty result. -/
def applyResolve (home dir : String) : Option String → String
  | none => ""
  | some w =>
    let e := expanduser home w
    if strStartsWith e "/" then e else joinPath dir e

/-- The candidate each probe entry denotes (an empty `files` list is
excluded by the callers of this description). -/
def entryCandidate : CfgEntry → Option String
  | .absent => none
  | .val s => some s
  | .flist [] => none
  | .flist (x :: _) => some x

theorem entryCandidate_toEntry (o : Option String) :
    entryCandidate (toEntry o) = o := by
  cases o <;> rfl

theorem probeConfig_eq_firstNonEmpty (entries : List CfgEntry)
    (h : CfgEntry.flist [] ∉ entries) :
    probeConfig entries = .ok (firstNonEmpty (entries.map entryCandidate)) := by
  induction entries with
  | nil => rfl
  | cons e rest ih =>
    have hrest : CfgEntry.flist [] ∉ rest := fun hm => h (List.mem_cons_of_mem _ hm)
    have hne : e ≠ CfgEntry.flist [] := fun he => h (he ▸ List.mem_cons_self _ _)
    cases e with
    | absent => simpa [probeConfig, entryCandidate, firstNonEmpty] using ih hrest
    | val s =>
      by_cases hs : s = "" <;>
        simp [probeConfig, entryCandidate, firstNonEmpty, hs, ih hrest]
    | flist l =>
      cases l with
      | nil => exact absurd rfl hne
      | cons x xs =>
        by_cases hx : x = "" <;>
          simp [probeConfig, entryCandidate, firstNonEmpty, hx, ih hrest]

theorem configEntries_candidates (cfg : GameConfig) (h : cfg.files ≠ some []) :
    (configEntries cfg).map entryCandidate = specCandidates cfg := by
  have hf : entryCandidate (filesEntry cfg.files) = cfg.files.bind List.head? := by
    match hcf : cfg.files with
    | none => rfl
    | some [] => exact absurd hcf h
    | some (x :: xs) => rfl
  simp [configEntries, specCandidates, entryCandidate_toEntry, hf]

theorem flistNil_not_mem_configEntries (cfg : GameConfig) (h : cfg.files ≠ some []) :
    CfgEntry.flist [] ∉ configEntries cfg := by
  intro hm
  simp only [configEntries, List.mem_cons, List.not_mem_nil, or_false] at hm
  rcases hm with h1 | h1 | h1 | h1 | h1 | h1 | h1
  · cases hx : cfg.exe <;> simp [toEntry, hx] at h1
  · cases hx : cfg.main_file <;> simp [toEntry, hx] at h1
  · cases hx : cfg.iso <;> simp [toEntry, hx] at h1
  · cases hx : cfg.rom <;> simp [toEntry, hx] at h1
  · cases hx : cfg.disk_a <;> simp [toEntry, hx] at h1
  · cases hx : cfg.path <;> simp [toEntry, hx] at h1
  · match hx : cfg.files with
    | none => simp [filesEntry, hx] at h1
    | some l =>
      rw [hx] at h1
      simp only [filesEntry, CfgEntry.flist.injEq] at h1
      exact h (hx.trans (by rw [h1]))

/-- `add_to_path_cache` (lines 170–181): derive the game's path; on no path,
log and return; otherwise `read_path_cache`, set `current_cache[game.id]`,
and rewrite the whole file.  Returns the exception outcome together with
the resulting file state. -/
def addToPathCache (home : String) (game : Game) (fs : FileState) :
    Except PyError Unit × FileState :=
  match getPathFromConfig home game with
  | .error e => (.error e, fs)
  | .ok p =>
    if p = "" then (.ok (), fs)
    else
      match readPathCache fs with
      | .error e => (.error e, fs)
      | .ok cur => (.ok (), .present (some (dictInsert cur game.id p)))

/-- `remove_from_path_cache` (lines 184–193): `read_path_cache`; if the id is
not a key, log and return; otherwise delete it and rewrite the whole file. -/
def removeFromPathCache (game : Game) (fs : FileState) :
    Except PyError Unit × FileState :=
  match readPathCache fs with
  | .error e => (.error e, fs)
  | .ok cur =>
    if dictHasKey cur game.id then (.ok (), .present (some (dictErase cur game.id)))
    else (.ok (), fs)

/-- `get_game_paths` (lines 143–154) over the installed games the database
returns: skip `steam`/`web` runners, skip games with no derivable path,
collect `id ↦ path` in order.  An exception from `get_path_from_config`
(the unguarded `files[0]`) propagates. -/
def getGamePaths (home : String) : List Game → Except PyError (List (String × String))
  | [] => .ok []
  | g :: rest =>
    if g.runner_name = "steam" ∨ g.runner_name = "web" then getGamePaths home rest
    else
      match getPathFromConfig home g with
      | .error e => .error e
      | .ok p =>
        if p = "" then getGamePaths home rest
        else
          match getGamePaths home rest with
          | .error e => .error e
          | .ok m => .ok ((g.id, p) :: m)

/-- `build_path_cache` (lines 157–167): if the file exists and `recreate` is
false, return at once.  Otherwise `open(..., "w")` — which truncates the file
immediately, leaving unparseable (empty) contents — and only then compute
`get_game_paths()` inside the `with` block and `json.dump` it: a failure
while deriving paths leaves the truncated file behind. -/
def buildPathCache (home : String) (games : List Game) (recreate : Bool)
    (fs : FileState) : Except PyError Unit × FileState :=
  if fs ≠ .absent ∧ recreate = false then (.ok (), fs)
  else
    match getGamePaths home games with
    | .error e => (.error e, .present none)
    | .ok m => (.ok (), .present (some m))

/-- The `game` section of an installer script: optional `exe` and
`main_file` keys (`.get` returns `None` when absent). -/
structure GameSection where
  exe : Option String
  main_file : Option String
  deriving DecidableEq, Repr

/-- `installer["script"]`: an optional `game` section — `["game"]` raises
`KeyError` when it is `none` — and an optional top-level `exe`. -/
structure InstallerScript where
  game : Option GameSection
  exe : Option String
  deriving DecidableEq, Repr

/-- An installer as `detect_game_from_installer` and `install_game` consume
it (only the `script` member is read by the embedded code). -/
structure Installer where
  script : InstallerScript
  deriving DecidableEq, Repr

/-- Lines 46–56 of `detect_game_from_installer`: the candidate `exe_path`.
`installer["script"]["game"].get("exe")` raises `KeyError` — and falls back
to the top-level `exe` — only when the `game` section is absent; a falsy
candidate then falls back to `["game"].get("main_file")`, where an absent
`game` section makes the second `try` pass and leaves the falsy value; a
still-falsy candidate means `None`. -/
def detectCandidate (inst : Installer) : Option String :=
  let e1 : Option String :=
    match inst.script.game with
    | some g => g.exe
    | none => inst.script.exe
  let e2 : Option String :=
    if optFalsy e1 then
      match inst.script.game with
      | some g => g.main_file
      | none => e1
    else e1
  if optFalsy e2 then none else e2

/-- `detect_game_from_installer` (lines 45–60): extract the candidate,
replace `"$GAMEDIR/"`, join with the folder, and return the result exactly
when it exists on disk (`fsExists` is the `os.path.exists` oracle). -/
def detectGameFromInstaller (fsExists : String → Bool) (game_folder : String)
    (inst : Installer) : Option String :=
  match detectCandidate inst with
  | none => none
  | some exe_path =>
    let exe_path := pyReplace exe_path "$GAMEDIR/" ""
    let full_path := joinPath game_folder exe_path
    if fsExists full_path then some full_path else none

/-- A catalog entry as `scan_directory` reads it: `slug`, `name` and the
alias slugs (`alias["slug"]` for each member of `aliases`). -/
structure ApiGame where
  slug : String
  name : String
  aliases : List String
  deriving DecidableEq, Repr

/-- The external world of one `scan_directory` call: the root directory, its
`os.listdir` result, the `os.path.isdir` and `os.path.exists` oracles, the
`slugify` normalizer, the database's used-directories set, the catalog
response, `get_game_installers`, and the outcome of each `install_game`
invocation. -/
structure ScanEnv where
  dirname : String
  folders : List String
  isDir : String → Bool
  slugify : String → String
  usedDirs : List String
  apiGames : List ApiGame
  installersOf : String → List Installer
  fsExists : String → Bool
  installResult : Installer → Option String → InstallResult

/-- `get_game_slugs_and_folders` (lines 22–30): keep the subdirectories and
map `slugify(folder) ↦ folder` in listing order (a slug collision keeps the
first position, last value, per dict semantics). -/
def getGameSlugsAndFolders (env : ScanEnv) : List (String × String) :=
  env.folders.foldl
    (fun m folder =>
      if env.isDir (joinPath env.dirname folder) then
        dictInsert m (env.slugify folder) folder
      else m)
    []

/-- The alias loop of `find_game_folder` (lines 38–42). -/
def findAliasFolder (env : ScanEnv) (slugs_map : List (String × String)) :
    List String → Option String
  | [] => none
  | alias0 :: rest =>
    match dictGet slugs_map alias0 with
    | some folder =>
      let game_folder := joinPath env.dirname folder
      if env.fsExists game_folder then some game_folder
      else findAliasFolder env slugs_map rest
    | none => findAliasFolder env slugs_map rest

/-- `find_game_folder` (lines 33–42): the entry's own slug first, then each
alias in order; the first folder that exists on disk wins; `None` otherwise. -/
def findGameFolder (env : ScanEnv) (api_game : ApiGame)
    (slugs_map : List (String × String)) : Option String :=
  match dictGet slugs_map api_game.slug with
  | some folder =>
    let game_folder := joinPath env.dirname folder
    if env.fsExists game_folder then some game_folder
    else findAliasFolder env slugs_map api_game.aliases
  | none => findAliasFolder env slugs_map api_game.aliases

/-- The installer loop of `find_game` (lines 63–69), with `game_folder`
possibly `None`: a truthy candidate with a `None` folder reaches
`os.path.join(None, exe_path)` and raises `TypeError`. -/
def findGameLoop (env : ScanEnv) (game_folder : Option String) :
    List Installer → Except PyError (Option (String × Installer))
  | [] => .ok none
  | inst :: rest =>
    match detectCandidate inst with
    | none => findGameLoop env game_folder rest
    | some exe_path =>
      match game_folder with
      | none => .error .typeError
      | some folder =>
        let full_path := joinPath folder (pyReplace exe_path "$GAMEDIR/" "")
        if env.fsExists full_path then .ok (some (full_path, inst))
        else findGameLoop env game_folder rest

/-- `find_game`: fetch the entry's installers and run the loop. -/
def findGame (env : ScanEnv) (game_folder : Option String) (slug : String) :
    Except PyError (Option (String × Installer)) :=
  findGameLoop env game_folder (env.installersOf slug)

/-- The per-entry loop of `scan_directory` (lines 92–108), returning the
`slugs_installed` set.  A folder already among the used directories marks
the slug installed with no side effects; otherwise a found installer is
run — `MissingGameDependencyError` is caught and logged, any other
exception propagates — and the slug is marked installed. -/
def scanLoop (env : ScanEnv) (slugs_map : List (String × String)) :
    List ApiGame → List String → List String → Except PyError (List String)
  | [], _, slugs_installed => .ok slugs_installed
  | api_game :: rest, slugs_seen, slugs_installed =>
    if api_game.slug ∈ slugs_seen then scanLoop env slugs_map rest slugs_seen slugs_installed
    else
      let slugs_seen := setAdd slugs_seen api_game.slug
      let game_folder := findGameFolder env api_game slugs_map
      if (match game_folder with
          | some gf => env.usedDirs.contains gf
          | none => false : Bool) then
        scanLoop env slugs_map rest slugs_seen (setAdd slugs_installed api_game.slug)
      else
        match findGame env game_folder api_game.slug with
        | .error e => .error e
        | .ok none => scanLoop env slugs_map rest slugs_seen slugs_installed
        | .ok (some (_, installer)) =>
          match env.installResult installer game_folder with
          | .otherError => .error .generic
          | _ =>
            scanLoop env slugs_map rest slugs_seen (setAdd slugs_installed api_game.slug)

/-- `scan_directory` (lines 86–112): build the slug map, run the loop, and
partition the slug map by membership in `slugs_installed`. -/
def scanDirectory (env : ScanEnv) :
    Except PyError (List (String × String) × List (String × String)) :=
  let slugs_map := getGameSlugsAndFolders env
  match scanLoop env slugs_map env.apiGames [] [] with
  | .error e => .error e
  | .ok slugs_installed =>
    .ok (slugs_map.filter (fun kv => kv.1 ∈ slugs_installed),
         slugs_map.filter (fun kv => kv.1 ∉ slugs_installed))

/-- The mutable state of the `MissingGames` singleton.  `fired` counts
`self.updated.fire()` calls. -/
structure MGState where
  missing_game_ids : List String
  check_game_ids : Option (List String)
  check_game_queue : List String
  check_all_games : Bool
  changed : Bool
  fired : Nat
  deriving DecidableEq, Repr

/-- The tracker's external world: `get_path_cache()` — which can raise, e.g.
`FileNotFoundError` from `read_path_cache` on an absent cache file — and the
`os.path.exists` oracle. -/
structure MGEnv where
  getPathCache : Except PyError (List (String × String))
  fsExists : String → Bool

/-- `MissingGames._notify_changed` (lines 278–283). -/
def notifyChanged (st : MGState) : MGState :=
  if st.changed then { st with changed := false, fired := st.fired + 1 } else st

/-- `MissingGames.update_missing` (lines 232–248): remember whether
`_check_game_ids` was `None` (that alone decides whether a worker is
scheduled), replace a falsy pending set by a fresh one, merge the requested
ids, and return the new state together with the scheduled flag.  An absent
`game_ids` argument is the empty list. -/
def updateMissing (st : MGState) (game_ids : List String) : MGState × Bool :=
  let start_fetch := st.check_game_ids.isNone
  let pending := st.check_game_ids.getD []
  let pending := setUnion pending game_ids
  ({ st with check_game_ids := some pending }, start_fetch)

/-- `MissingGames.update_all_missing` (lines 226–230). -/
def updateAllMissing (st : MGState) : MGState × Bool :=
  updateMissing { st with check_all_games := true } []

/-- The tail of `_next_game_id` (lines 295–307): on an empty work queue with
a truthy pending set, notify, stall, move the pending ids into the queue and
clear them; then `pop()` the queue's last element, or report exhaustion. -/
def nextGameIdStall (st : MGState) : Option String × MGState :=
  let st :=
    if st.check_game_queue = [] ∧ st.check_game_ids.getD [] ≠ [] then
      let st := notifyChanged st
      { st with
        check_game_queue := st.check_game_ids.getD []
        check_game_ids := st.check_game_ids.map (fun _ => []) }
    else st
  match st.check_game_queue.getLast? with
  | some gid => (some gid, { st with check_game_queue := st.check_game_queue.dropLast })
  | none => (none, st)

/-- `MissingGames._next_game_id` (lines 285–307): when `_check_all_games` is
set, clear the flag, load the cache — an exception escapes with the flag
already cleared — put its keys on the work queue and clear the pending set;
then the stall/pop tail runs. -/
def nextGameId (env : MGEnv) (st : MGState) :
    Except PyError (Option String) × MGState :=
  if st.check_all_games then
    let st1 := { st with check_all_games := false }
    match env.getPathCache with
    | .error e => (.error e, st1)
    | .ok path_cache =>
      let st2 := { st1 with
        check_game_queue := path_cache.map Prod.fst
        check_game_ids := st1.check_game_ids.map (fun _ => []) }
      let (r, st3) := nextGameIdStall st2
      (.ok r, st3)
  else
    let (r, st3) := nextGameIdStall st
    (.ok r, st3)

/-- The per-id body of the `_fetch` loop (lines 261–270):
`get_path_cache().get(game_id)`; a truthy path that exists discards the id
from `missing_game_ids` when present; a truthy path that does not exist adds
the id when absent; a falsy or absent path changes nothing. -/
def processGameId (env : MGEnv) (st : MGState) (game_id : String) :
    Except PyError Unit × MGState :=
  match env.getPathCache with
  | .error e => (.error e, st)
  | .ok cache =>
    let st :=
      match dictGet cache game_id with
      | some p =>
        if p ≠ "" then
          if env.fsExists p then
            if game_id ∈ st.missing_game_ids then
              { st with
                missing_game_ids := st.missing_game_ids.filter (fun x => x ≠ game_id)
                changed := true }
            else st
          else
            if game_id ∉ st.missing_game_ids then
              { st with
                missing_game_ids := setAdd st.missing_game_ids game_id
                changed := true }
            else st
        else st
      | none => st
    (.ok (), st)

/-- The `while True` loop of `_fetch` (lines 256–270), fuel-bounded: each
iteration takes the next game id — stopping on `None` — and processes it;
an exception escapes with the state mutated so far.  Exhausted fuel reports
a normal stop (every execution reached by the theorems below carries enough
fuel to drain the queues). -/
def fetchLoop (env : MGEnv) : Nat → MGState → Except PyError Unit × MGState
  | 0, st => (.ok (), st)
  | fuel + 1, st =>
    match nextGameId env st with
    | (.error e, st1) => (.error e, st1)
    | (.ok none, st1) => (.ok (), st1)
    | (.ok (some game_id), st1) =>
      match processGameId env st1 game_id with
      | (.error e, st2) => (.error e, st2)
      | (.ok _, st2) => fetchLoop env fuel st2

/-- `MissingGames._fetch` (lines 250–276): run the loop; `except Exception`
swallows (and logs) any failure; the `finally` block clears
`_check_game_ids` and calls `_notify_changed` on every path. -/
def fetch (env : MGEnv) (fuel : Nat) (st : MGState) : MGState :=
  let (_, st1) := fetchLoop env fuel st
  notifyChanged { st1 with check_game_ids := none }

/-- C2, counterexample: the claim says `read()` never raises and returns an
empty mapping when the cache file is absent; but `open` sits outside the
`try` block, so on the absent file state `read_path_cache` raises
`FileNotFoundError` instead of returning `{}`. -/
theorem readPathCache_absent_raises_cex :
    readPathCache .absent = .error .fileNotFound ∧
    readPathCache .absent ≠ .ok [] := by
  exact ⟨rfl, fun h => by cases h⟩

/-- C2, amended: `read_path_cache` returns the empty mapping when the file's
contents fail to parse as JSON (the `json.JSONDecodeError` handler), and
returns the parsed mapping otherwise; but when the file is absent the `open`
call raises `FileNotFoundError`, which propagates to the caller. -/
theorem readPathCache_amended :
    readPathCache .absent = .error .fileNotFound ∧
    readPathCache (.present none) = .ok [] ∧
    ∀ m, readPathCache (.present (some m)) = .ok m := by
  exact ⟨rfl, rfl, fun m => rfl⟩

/-- C9: when the cache file already exists, `build_path_cache(recreate=False)`
is a no-op — the file state is returned unchanged, whatever the game library
holds — and a second call on the result is the same no-op. -/
theorem build_path_cache_noop (home : String) (games : List Game)
    (fs : FileState) (h : fs ≠ .absent) :
    buildPathCache home games false fs = (.ok (), fs) ∧
    buildPathCache home games false (buildPathCache home games false fs).2 =
      (.ok (), fs) := by
  have h1 : buildPathCache home games false fs = (.ok (), fs) := by
    simp [buildPathCache, h]
  exact ⟨h1, by rw [h1]; simpa [buildPathCache] using h1⟩

/-- C9, witness: the no-op on a concrete existing (here corrupt) file with a
one-game library. -/
theorem build_path_cache_noop_witness :
    buildPathCache "/h" [⟨"1", "linux", "/d", none⟩] false (.present none) =
      (.ok (), .present none) :=
  (build_path_cache_noop "/h" [⟨"1", "linux", "/d", none⟩] (.present none)
    (by decide)).1

theorem probeConfig_falsy_entries (entries : List CfgEntry)
    (h : ∀ e ∈ entries, e = CfgEntry.absent ∨ e = CfgEntry.val "") :
    probeConfig (entries ++ [CfgEntry.flist []]) = .error .indexError := by
  induction entries with
  | nil => rfl
  | cons e rest ih =>
    have hrest := fun e2 hm => h e2 (List.mem_cons_of_mem _ hm)
    rcases h e (List.mem_cons_self _ _) with he | he <;>
      simp [he, probeConfig, ih hrest]

/-- C10, counterexample: the claim quantifies over every game whose
configuration has none of the five scalar keys with a non-empty value, no
`path` key, and `files = []`; but a `mame`-runner game whose `main_file` is
present with the empty value satisfies all of that and returns `""` through
the dotless-MAME-id guard of lines 123–125 — the probe loop, and hence the
claimed `IndexError`, is never reached. -/
theorem getPathFromConfig_mame_empty_cex :
    getPathFromConfig "/h"
        ⟨"1", "mame", "/d", some ⟨none, some "", none, none, none, none, some []⟩⟩ =
      .ok "" ∧
    (Except.ok "" : Except PyError String) ≠ .error .indexError := by
  exact ⟨rfl, fun h => by cases h⟩

/-- C10, amended: for every game whose configuration has each of `exe`,
`main_file`, `iso`, `rom`, `disk-a` absent or empty, no `path` key, and
`files` mapped to the empty list, and which the dotless-MAME-id guard does
not divert, `get_path_from_config` raises `IndexError` — the `path[0]`
access is unguarded — instead of returning the `""` of the no-key case. -/
theorem getPathFromConfig_empty_files_raises (home : String) (game : Game)
    (cfg : GameConfig) (hc : game.config = some cfg)
    (hexe : cfg.exe = none ∨ cfg.exe = some "")
    (hmf : cfg.main_file = none ∨ cfg.main_file = some "")
    (hiso : cfg.iso = none ∨ cfg.iso = some "")
    (hrom : cfg.rom = none ∨ cfg.rom = some "")
    (hda : cfg.disk_a = none ∨ cfg.disk_a = some "")
    (hpath : cfg.path = none)
    (hfiles : cfg.files = some [])
    (hmame : mameSkip game cfg = false) :
    getPathFromConfig home game = .error .indexError := by
  have hentries : configEntries cfg =
      [toEntry cfg.exe, toEntry cfg.main_file, toEntry cfg.iso, toEntry cfg.rom,
       toEntry cfg.disk_a, toEntry cfg.path] ++ [CfgEntry.flist []] := by
    simp [configEntries, hfiles, filesEntry]
  have hfalsy : ∀ e ∈ [toEntry cfg.exe, toEntry cfg.main_file, toEntry cfg.iso,
      toEntry cfg.rom, toEntry cfg.disk_a, toEntry cfg.path],
      e = CfgEntry.absent ∨ e = CfgEntry.val "" := by
    intro e hm
    simp only [List.mem_cons, List.not_mem_nil, or_false] at hm
    rcases hm with h | h | h | h | h | h <;> subst h
    · rcases hexe with h | h <;> simp [toEntry, h]
    · rcases hmf with h | h <;> simp [toEntry, h]
    · rcases hiso with h | h <;> simp [toEntry, h]
    · rcases hrom with h | h <;> simp [toEntry, h]
    · rcases hda with h | h <;> simp [toEntry, h]
    · simp [toEntry, hpath]
  have hp : probeConfig (configEntries cfg) = .error .indexError := by
    rw [hentries]
    exact probeConfig_falsy_entries _ hfalsy
  simp [getPathFromConfig, hc, hmame, hp]

/-- C10, witness: the amended statement at a concrete non-MAME game whose
`main_file` is present but empty and whose `files` list is empty. -/
theorem getPathFromConfig_empty_files_raises_witness :
    getPathFromConfig "/h"
        ⟨"1", "linux", "/d", some ⟨none, some "", none, none, none, none, some []⟩⟩ =
      .error .indexError :=
  getPathFromConfig_empty_files_raises "/h"
    ⟨"1", "linux", "/d", some ⟨none, some "", none, none, none, none, some []⟩⟩
    ⟨none, some "", none, none, none, none, some []⟩ rfl
    (Or.inl rfl) (Or.inr rfl) (Or.inl rfl) (Or.inl rfl) (Or.inl rfl) rfl rfl rfl

/-- C7: round-trip through the persistent cache on any present (possibly
corrupt) file state: when the game's path derives to a non-empty `p`,
`add_to_path_cache` followed by `read_path_cache` yields a mapping binding
`game.id` to `p`; and `remove_from_path_cache` followed by `read_path_cache`
yields a mapping with no binding for `game.id`. -/
theorem path_cache_roundtrip (home : String) (game : Game) (fs : FileState)
    (p : String) (hfs : fs ≠ .absent)
    (hp : getPathFromConfig home game = .ok p) (hne : p ≠ "") :
    (∃ m, readPathCache (addToPathCache home game fs).2 = .ok m ∧
        dictGet m game.id = some p) ∧
    (∃ m, readPathCache (removeFromPathCache game fs).2 = .ok m ∧
        dictGet m game.id = none) := by
  obtain ⟨cur, hcur⟩ : ∃ cur, readPathCache fs = .ok cur := by
    match fs with
    | .absent => exact absurd rfl hfs
    | .present none => exact ⟨[], rfl⟩
    | .present (some m) => exact ⟨m, rfl⟩
  constructor
  · refine ⟨dictInsert cur game.id p, ?_, dictGet_insert_self cur game.id p⟩
    have h2 : (addToPathCache home game fs).2 =
        .present (some (dictInsert cur game.id p)) := by
      simp [addToPathCache, hp, hne, hcur]
    rw [h2]
    rfl
  · by_cases hk : dictHasKey cur game.id
    · refine ⟨dictErase cur game.id, ?_, dictGet_erase_self cur game.id⟩
      have h2 : (removeFromPathCache game fs).2 =
          .present (some (dictErase cur game.id)) := by
        simp [removeFromPathCache, hcur, hk]
      rw [h2]
      rfl
    · have hg : dictGet cur game.id = none := by
        rcases h : dictGet cur game.id with _ | v
        · rfl
        · exact absurd (by simp [dictHasKey, h]) hk
      have h2 : (removeFromPathCache game fs).2 = fs := by
        simp [removeFromPathCache, hcur, hk]
      exact ⟨cur, by rw [h2]; exact hcur, hg⟩

/-- C7, witness: the round-trip at a concrete game whose configured `exe` is
the absolute path `/e`, over a concrete valid cache file. -/
theorem path_cache_roundtrip_witness :
    (∃ m, readPathCache
        (addToPathCache "/h" ⟨"9", "linux", "/dir",
            some ⟨some "/e", none, none, none, none, none, none⟩⟩
          (.present (some [("7", "/old")]))).2 = .ok m ∧
        dictGet m "9" = some "/e") ∧
    (∃ m, readPathCache
        (removeFromPathCache ⟨"9", "linux", "/dir",
            some ⟨some "/e", none, none, none, none, none, none⟩⟩
          (.present (some [("7", "/old")]))).2 = .ok m ∧
        dictGet m "9" = none) :=
  path_cache_roundtrip "/h"
    ⟨"9", "linux", "/dir", some ⟨some "/e", none, none, none, none, none, none⟩⟩
    (.present (some [("7", "/old")])) "/e" (by decide) (by rfl) (by decide)

/-- C8, counterexample: the claim says a failure while deriving paths leaves
the previously observable file contents unchanged; but `build_path_cache`
opens the file in `"w"` mode — truncating it — before `get_game_paths()`
runs inside the `with` block, so the `IndexError` raised for a game whose
`files` list is empty leaves the file truncated: the old binding is gone and
a subsequent read returns `{}`. -/
theorem build_path_cache_truncation_cex :
    buildPathCache "/h"
        [⟨"1", "linux", "/d", some ⟨none, none, none, none, none, none, some []⟩⟩]
        true (.present (some [("2", "/old")])) =
      (.error .indexError, .present none) ∧
    FileState.present none ≠ FileState.present (some [("2", "/old")]) ∧
    readPathCache (.present none) = .ok [] := by
  refine ⟨rfl, by decide, rfl⟩

/-- C8, amended: when `build_path_cache` actually rebuilds (the file is
absent or `recreate` is true) it first truncates the file by opening it for
writing and only then derives the full mapping: on success the file holds
exactly the recomputed mapping, written as one whole object; on a derivation
failure the error propagates and the file is left truncated — unparseable,
read back as `{}` — not with its previous contents. -/
theorem build_path_cache_rebuild_amended (home : String) (games : List Game)
    (recreate : Bool) (fs : FileState) (h : fs = .absent ∨ recreate = true) :
    (∀ m, getGamePaths home games = .ok m →
        buildPathCache home games recreate fs = (.ok (), .present (some m))) ∧
    (∀ e, getGamePaths home games = .error e →
        buildPathCache home games recreate fs = (.error e, .present none)) := by
  have hcond : ¬(fs ≠ .absent ∧ recreate = false) := by
    rcases h with h | h
    · exact fun hc => hc.1 h
    · exact fun hc => by rw [h] at hc; exact absurd hc.2 (by decide)
  constructor
  · intro m hm
    simp [buildPathCache, hcond, hm]
  · intro e he
    simp [buildPathCache, hcond, he]

/-- C8, witness: rebuilding onto an absent file with an empty library writes
the empty mapping. -/
theorem build_path_cache_rebuild_amended_witness :
    buildPathCache "/h" [] false .absent = (.ok (), .present (some [])) :=
  (build_path_cache_rebuild_amended "/h" [] false .absent (Or.inl rfl)).1 [] rfl

/-- C5: for a game with a configuration, `get_path_from_config` probes the
keys in the fixed order `exe`, `main_file`, `iso`, `rom`, `disk-a`, `path`,
then the first element of `files`; the first present, non-empty value wins,
is user-expanded, and a relative winner is joined under the game's install
directory (no winner gives `""`); and a game run by the `mame` runner whose
`main_file` has no `.` in it yields no path.  The empty-`files` corner that
raises is C10's. -/
theorem getPathFromConfig_priority (home : String) (game : Game)
    (cfg : GameConfig) (hc : game.config = some cfg) :
    (mameSkip game cfg = true → getPathFromConfig home game = .ok "") ∧
    (mameSkip game cfg = false → cfg.files ≠ some [] →
      getPathFromConfig home game =
        .ok (applyResolve home game.directory
              (firstNonEmpty (specCandidates cfg)))) := by
  constructor
  · intro hm
    simp [getPathFromConfig, hc, hm]
  · intro hm hf
    have h1 := probeConfig_eq_firstNonEmpty (configEntries cfg)
      (flistNil_not_mem_configEntries cfg hf)
    rw [configEntries_candidates cfg hf] at h1
    cases hw : firstNonEmpty (specCandidates cfg) with
    | none =>
      rw [hw] at h1
      simp [getPathFromConfig, hc, hm, h1, applyResolve]
    | some w =>
      rw [hw] at h1
      simp [getPathFromConfig, hc, hm, h1, applyResolve]

/-- C5, witness: a configuration with a present-but-empty `exe` and a
relative `main_file` resolves, under a non-`mame` runner, to the
`main_file` joined under the game directory. -/
theorem getPathFromConfig_priority_witness :
    getPathFromConfig "/h"
        ⟨"3", "linux", "/inst",
          some ⟨some "", some "game.bin", none, none, none, none, none⟩⟩ =
      .ok "/inst/game.bin" := by
  have h := (getPathFromConfig_priority "/h"
    ⟨"3", "linux", "/inst",
      some ⟨some "", some "game.bin", none, none, none, none, none⟩⟩
    ⟨some "", some "game.bin", none, none, none, none, none⟩ rfl).2
    (by rfl) (by decide)
  exact h.trans (by rfl)

/-- C6, counterexample, two parts.  First: the claimed priority is
game-section `exe`, then top-level `exe`, then game-section `main_file`;
but when the game section is present with no `exe`, the code's `.get("exe")`
returns `None` without a `KeyError`, so the top-level `exe` is never
consulted and `main_file` wins: with both `/f/a.exe` and `/f/b.exe` on disk,
a script with top-level `exe = "a.exe"` and game-section
`main_file = "b.exe"` yields `/f/b.exe`, not the claimed `/f/a.exe`.
Second: `"$GAMEDIR/"` is removed everywhere, not only as a prefix: an
interior occurrence in `x/$GAMEDIR/y.exe` is dropped, yielding
`/f/x/y.exe` rather than the claimed `/f/x/$GAMEDIR/y.exe`. -/
theorem detect_game_from_installer_cex :
    (detectGameFromInstaller (fun s => s == "/f/a.exe" || s == "/f/b.exe") "/f"
        ⟨⟨some ⟨none, some "b.exe"⟩, some "a.exe"⟩⟩ = some "/f/b.exe" ∧
      some "/f/b.exe" ≠ some "/f/a.exe") ∧
    (detectGameFromInstaller
        (fun s => s == "/f/x/y.exe" || s == "/f/x/$GAMEDIR/y.exe") "/f"
        ⟨⟨some ⟨some "x/$GAMEDIR/y.exe", none⟩, none⟩⟩ = some "/f/x/y.exe" ∧
      some "/f/x/y.exe" ≠ some "/f/x/$GAMEDIR/y.exe") := by
  exact ⟨⟨rfl, by decide⟩, ⟨rfl, by decide⟩⟩

/-- The candidate extraction as the amended claim describes it: when the
installer's `game` section is present, its `exe`, falling back to its
`main_file` when that is empty or absent; the top-level `exe` only when the
`game` section is absent entirely; an empty or missing result is no
candidate. -/
def detectSpecCandidate (inst : Installer) : Option String :=
  match inst.script.game with
  | some g =>
    if optFalsy g.exe then (if optFalsy g.main_file then none else g.main_file)
    else g.exe
  | none => if optFalsy inst.script.exe then none else inst.script.exe

/-- `deriveExeFromInstaller` as the amended claim describes it: extract the
candidate per `detectSpecCandidate`, remove every occurrence of the literal
`"$GAMEDIR/"` substring, join with the folder path, and return the joined
path exactly when it exists on disk. -/
def detectSpecAmended (fsExists : String → Bool) (folder : String)
    (inst : Installer) : Option String :=
  match detectSpecCandidate inst with
  | none => none
  | some c =>
    let full := joinPath folder (pyReplace c "$GAMEDIR/" "")
    if fsExists full then some full else none

theorem detectCandidate_eq_spec (inst : Installer) :
    detectCandidate inst = detectSpecCandidate inst := by
  cases hg : inst.script.game with
  | none =>
    by_cases h1 : optFalsy inst.script.exe = true <;>
      simp [detectCandidate, detectSpecCandidate, hg, h1]
  | some g =>
    by_cases h1 : optFalsy g.exe = true
    · by_cases h2 : optFalsy g.main_file = true <;>
        simp [detectCandidate, detectSpecCandidate, hg, h1, h2]
    · simp [detectCandidate, detectSpecCandidate, hg, h1]

/-- C6, amended: for every folder path, installer document and filesystem,
`detect_game_from_installer` behaves exactly as `detectSpecAmended`: the
candidate is the game section's `exe` when that section is present (falling
back to its `main_file` when the `exe` key is empty or absent), and the
top-level `exe` only when the game section is absent; every occurrence of
the literal `"$GAMEDIR/"` is removed; the result is joined with the folder
path and returned if and only if the joined path exists on disk, `None`
otherwise (including when no key yields a value). -/
theorem detect_game_from_installer_amended (fsExists : String → Bool)
    (folder : String) (inst : Installer) :
    detectGameFromInstaller fsExists folder inst =
      detectSpecAmended fsExists folder inst := by
  unfold detectGameFromInstaller detectSpecAmended
  rw [detectCandidate_eq_spec]

/-- C4: the pending-set sentinel is the single-flight invariant.
`update_missing` schedules a worker task if and only if `_check_game_ids`
is `None` at the time of the call; when it is not `None`, the requested ids
are merged into the existing pending set; and every `_fetch` run — the
exception path included, since the `except` swallows the failure and the
`finally` always executes — ends with `_check_game_ids` reset to `None`. -/
theorem update_missing_single_flight :
    (∀ (st : MGState) (ids : List String),
        (updateMissing st ids).2 = true ↔ st.check_game_ids = none) ∧
    (∀ (st : MGState) (ids s : List String), st.check_game_ids = some s →
        (updateMissing st ids).1.check_game_ids = some (setUnion s ids)) ∧
    (∀ (env : MGEnv) (fuel : Nat) (st : MGState),
        (fetch env fuel st).check_game_ids = none) := by
  refine ⟨fun st ids => ?_, fun st ids s hs => ?_, fun env fuel st => ?_⟩
  · simp only [updateMissing, Option.isNone_iff_eq_none]
  · simp [updateMissing, hs]
  · simp only [fetch, notifyChanged]
    split <;> rfl

/-- C4, witness: scheduling from idle, merging while active, and the
sentinel reset after a pass over an erroring cache read (an absent cache
file raising inside the worker loop). -/
theorem update_missing_single_flight_witness :
    (updateMissing ⟨[], none, [], false, false, 0⟩ ["g1"]).2 = true ∧
    (updateMissing ⟨[], some ["a"], [], false, false, 0⟩ ["b"]).1.check_game_ids =
      some (setUnion ["a"] ["b"]) ∧
    (fetch ⟨.error .fileNotFound, fun _ => false⟩ 3
        ⟨[], some ["a"], [], false, false, 0⟩).check_game_ids = none :=
  ⟨(update_missing_single_flight.1 ⟨[], none, [], false, false, 0⟩ ["g1"]).mpr rfl,
   update_missing_single_flight.2.1 ⟨[], some ["a"], [], false, false, 0⟩ ["b"]
     ["a"] rfl,
   update_missing_single_flight.2.2 ⟨.error .fileNotFound, fun _ => false⟩ 3
     ⟨[], some ["a"], [], false, false, 0⟩⟩

/-- C3, counterexample: an id with no cached path is not added to
`missing_game_ids` — the loop body does nothing when
`get_path_cache().get(game_id)` is falsy — contradicting the claim that such
an id is added; a full pass over the single id `"g"` with an empty cache
leaves `missing_game_ids` empty. -/
theorem missing_games_uncached_id_cex :
    dictGet [] "g" = none ∧
    (fetch ⟨.ok [], fun _ => false⟩ 3
        ⟨[], some ["g"], [], false, false, 0⟩).missing_game_ids = [] := by
  exact ⟨rfl, rfl⟩

/-- C3, amended: for every id processed by the worker pass, when a non-empty
path is cached for it: if the path exists on disk the id ends up outside
`missing_game_ids` (discarded when present), and if it does not exist the id
ends up inside (added when absent); an id with no cached (or an empty
cached) path leaves the state unchanged; and the concrete pass over
`{"g1","g2"}` started from an idle, empty-missing state — where `g1`'s
cached path exists and `g2`'s does not — ends with `missing_game_ids`
exactly `{"g2"}` and the notification fired exactly once. -/
theorem missing_games_worker_pass_amended (env : MGEnv) (st : MGState)
    (gid : String) (cache : List (String × String))
    (hc : env.getPathCache = .ok cache) :
    (∀ p, dictGet cache gid = some p → p ≠ "" → env.fsExists p = true →
        gid ∉ (processGameId env st gid).2.missing_game_ids) ∧
    (∀ p, dictGet cache gid = some p → p ≠ "" → env.fsExists p = false →
        gid ∈ (processGameId env st gid).2.missing_game_ids) ∧
    (dictGet cache gid = none → (processGameId env st gid).2 = st) ∧
    (dictGet cache gid = some "" → (processGameId env st gid).2 = st) ∧
    fetch ⟨.ok [("g1", "/p1"), ("g2", "/p2")], fun s => s == "/p1"⟩ 5
        (updateMissing ⟨[], none, [], false, false, 0⟩ ["g1", "g2"]).1 =
      ⟨["g2"], none, [], false, false, 1⟩ := by
  refine ⟨fun p hp hne hex => ?_, fun p hp hne hex => ?_, fun hp => ?_,
    fun hp => ?_, rfl⟩
  · by_cases hm : gid ∈ st.missing_game_ids
    · simp [processGameId, hc, hp, hne, hex, hm]
    · simp [processGameId, hc, hp, hne, hex, hm]
  · by_cases hm : gid ∈ st.missing_game_ids
    · simp [processGameId, hc, hp, hne, hex, hm]
    · simp [processGameId, hc, hp, hne, hex, hm, setAdd]
  · simp [processGameId, hc, hp]
  · simp [processGameId, hc, hp]

/-- C3, witness: an id whose cached path is missing from the disk is added
to the missing set. -/
theorem missing_games_worker_pass_amended_witness :
    "g" ∈ (processGameId ⟨.ok [("g", "/p")], fun _ => false⟩
        ⟨[], some ["g"], [], false, false, 0⟩ "g").2.missing_game_ids :=
  (missing_games_worker_pass_amended ⟨.ok [("g", "/p")], fun _ => false⟩
      ⟨[], some ["g"], [], false, false, 0⟩ "g" [("g", "/p")] rfl).2.1
    "/p" rfl (by decide) rfl

theorem mem_setAdd_of_mem {l : List String} {x : String} (y : String)
    (h : x ∈ l) : x ∈ setAdd l y := by
  unfold setAdd
  split <;> simp [h]

theorem mem_setAdd_self (l : List String) (x : String) : x ∈ setAdd l x := by
  unfold setAdd
  split
  · assumption
  · simp

theorem scanLoop_installed_mono (env : ScanEnv) (smap : List (String × String))
    (ags : List ApiGame) :
    ∀ (seen installed fin : List String) (x : String), x ∈ installed →
      scanLoop env smap ags seen installed = .ok fin → x ∈ fin := by
  induction ags with
  | nil =>
    intro seen installed fin x hx h
    injection h with h
    exact h ▸ hx
  | cons ag rest ih =>
    intro seen installed fin x hx h
    rw [scanLoop] at h
    by_cases hs : ag.slug ∈ seen
    · rw [if_pos hs] at h
      exact ih _ _ _ _ hx h
    · rw [if_neg hs] at h
      simp only [] at h
      split at h
      · exact ih _ _ _ _ (mem_setAdd_of_mem _ hx) h
      · split at h
        · exact Except.noConfusion h
        · exact ih _ _ _ _ hx h
        · split at h
          · exact Except.noConfusion h
          · exact ih _ _ _ _ (mem_setAdd_of_mem _ hx) h

/-- The environment of the C1 counterexample scan: a root `/games` holding
`hollow-knight` and `unknown-game`, one catalog entry whose installer's
`game.exe` resolves to the existing `/games/hollow-knight/hk.exe`, and an
install collaborator that raises `MissingGameDependencyError` on every
call. -/
def c1Env : ScanEnv where
  dirname := "/games"
  folders := ["hollow-knight", "unknown-game"]
  isDir := fun _ => true
  slugify := fun s => s
  usedDirs := []
  apiGames := [⟨"hollow-knight", "Hollow Knight", []⟩]
  installersOf := fun _ => [⟨⟨some ⟨some "hk.exe", none⟩, none⟩⟩]
  fsExists := fun s => s == "/games/hollow-knight" || s == "/games/hollow-knight/hk.exe"
  installResult := fun _ _ => .missingGameDependency

/-- C1, counterexample: the claim says the entry's slug stays unresolved —
in `missingMap`, not `installedMap` — when the install collaborator raises a
missing-dependency failure; but the `except MissingGameDependencyError`
handler only logs, and the line `slugs_installed.add(api_game["slug"])` runs
afterwards regardless, so `hollow-knight` lands in `installedMap` and only
the unmatched `unknown-game` in `missingMap`. -/
theorem scan_missing_dependency_cex :
    c1Env.installResult ⟨⟨some ⟨some "hk.exe", none⟩, none⟩⟩
        (some "/games/hollow-knight") = .missingGameDependency ∧
    scanDirectory c1Env =
      .ok ([("hollow-knight", "hollow-knight")],
           [("unknown-game", "unknown-game")]) ∧
    dictGet [("hollow-knight", "hollow-knight")] "hollow-knight" =
      some "hollow-knight" ∧
    dictGet [("unknown-game", "unknown-game")] "hollow-knight" = none := by
  exact ⟨rfl, rfl, rfl, rfl⟩

/-- C1, amended: when the entry's installer resolves and `install_game`
raises `MissingGameDependencyError`, the failure is caught and logged and
the scan continues with the remaining catalog entries — the step equals the
scan of the rest — but the slug is nonetheless marked installed, so it ends
up in the returned `slugs_installed` set and hence in `installedMap`, not
`missingMap`. -/
theorem scan_missing_dependency_amended (env : ScanEnv) (ag : ApiGame)
    (rest : List ApiGame) (seen installed : List String) (fp : String)
    (inst : Installer) (smap : List (String × String))
    (h1 : ag.slug ∉ seen)
    (h2 : (match findGameFolder env ag smap with
           | some gf => env.usedDirs.contains gf
           | none => false) = false)
    (h3 : findGame env (findGameFolder env ag smap) ag.slug =
      .ok (some (fp, inst)))
    (h4 : env.installResult inst (findGameFolder env ag smap) =
      .missingGameDependency) :
    scanLoop env smap (ag :: rest) seen installed =
      scanLoop env smap rest (setAdd seen ag.slug) (setAdd installed ag.slug) ∧
    ∀ fin, scanLoop env smap (ag :: rest) seen installed = .ok fin →
      ag.slug ∈ fin := by
  have step : scanLoop env smap (ag :: rest) seen installed =
      scanLoop env smap rest (setAdd seen ag.slug) (setAdd installed ag.slug) := by
    rw [scanLoop, if_neg h1]
    simp only [h2]
    simp [h3, h4]
  refine ⟨step, fun fin hfin => ?_⟩
  rw [step] at hfin
  exact scanLoop_installed_mono env smap rest _ _ fin ag.slug
    (mem_setAdd_self installed ag.slug) hfin

/-- C1, witness: the amended step at the counterexample environment — the
failing install is skipped, the scan proceeds, and `hollow-knight` is in the
final installed set. -/
theorem scan_missing_dependency_amended_witness :
    scanLoop c1Env
        [("hollow-knight", "hollow-knight"), ("unknown-game", "unknown-game")]
        [⟨"hollow-knight", "Hollow Knight", []⟩] [] [] =
      scanLoop c1Env
        [("hollow-knight", "hollow-knight"), ("unknown-game", "unknown-game")]
        [] (setAdd [] "hollow-knight") (setAdd [] "hollow-knight") ∧
    "hollow-knight" ∈ (["hollow-knight"] : List String) :=
  ⟨(scan_missing_dependency_amended c1Env ⟨"hollow-knight", "Hollow Knight", []⟩
      [] [] [] "/games/hollow-knight/hk.exe" ⟨⟨some ⟨some "hk.exe", none⟩, none⟩⟩
      [("hollow-knight", "hollow-knight"), ("unknown-game", "unknown-game")]
      (by decide) rfl rfl rfl).1,
   (scan_missing_dependency_amended c1Env ⟨"hollow-knight", "Hollow Knight", []⟩
      [] [] [] "/games/hollow-knight/hk.exe" ⟨⟨some ⟨some "hk.exe", none⟩, none⟩⟩
      [("hollow-knight", "hollow-knight"), ("unknown-game", "unknown-game")]
      (by decide) rfl rfl rfl).2 ["hollow-knight"] rfl⟩

end LutrisScanner
